import Mathlib

/-!
Verification of the table-extraction core of the race-timing scraper
(src/streamlit_app.py).

The extractor `parse_race_data` is embedded shallowly: its input is modelled
at the level BeautifulSoup delivers it, namely the document-order list of
tables carrying the marker class `compact-styled-table`, each table the list
of its `tr` rows, each row the list of the raw text of its `th`/`td` cells.
Cell text stripping (`get_text(strip=True)`) is modelled by `strip`.
`pandas.DataFrame(data_rows, columns=headers)` is modelled by `pd_DataFrame`
(ragged rows are padded with missing values to the longest row's length,
and construction fails unless that length equals the header length, which
is the ValueError the source catches), and the two `dropna` calls by
`dropna_rows` / `dropna_cols` (a missing value is `none`; an empty string
is `some ""` and is not missing).
-/

set_option autoImplicit false

namespace Scraper

/-- A raw candidate table: rows of raw cell texts, first row provisional header. -/
abbrev RawTable := List (List String)

/-- Python `str.strip` on the character list: drop leading and trailing whitespace.
Models BeautifulSoup `get_text(strip=True)` applied to one cell. -/
def stripChars (cs : List Char) : List Char :=
  ((cs.dropWhile Char.isWhitespace).reverse.dropWhile Char.isWhitespace).reverse

/-- Python `str.strip` on strings. -/
def strip (s : String) : String :=
  String.mk (stripChars s.data)

/-- The structured output table: a header and rows of cells, where a cell is
`none` when pandas padded a short row with a missing value (NaN) and
`some s` when the cell holds text `s` (possibly empty). -/
structure ResultTable where
  header : List String
  rows : List (List (Option String))
deriving Repr, DecidableEq

/-- The two extractor failures, distinguished in the source by the two
`st.error` messages `No race data tables found` and
`No valid race data found in any table`. -/
inductive ExtractError where
  | NoTableFound
  | NoValidData
deriving Repr, DecidableEq

/-- The body of the data-row loop of `parse_race_data` (lines 126-131) for
one row: take its cells, skip the row when it has no cells (`if cols`),
strip each cell, and keep the row only when some stripped cell is a
non-empty string (`if any(row_data)`). -/
def keep_row (row : List String) : Option (List String) :=
  if row.isEmpty then none
  else
    let row_data := row.map strip
    if row_data.any (fun s => !s.isEmpty) then some row_data else none

/-- The data-row extraction loop of `parse_race_data` (lines 125-131). -/
def extract_data_rows (rows : List (List String)) : List (List String) :=
  rows.filterMap keep_row

/-- Length of the longest row, 0 when there are none: the width pandas pads
a ragged list-of-lists to. -/
def maxRowLen (rows : List (List String)) : Nat :=
  rows.foldr (fun r m => max r.length m) 0

/-- pandas `lib.to_object_array`: pad every row with missing values (NaN,
here `none`) up to the longest row's length. -/
def to_object_array (rows : List (List String)) : List (List (Option String)) :=
  let L := maxRowLen rows
  rows.map fun r => r.map some ++ List.replicate (L - r.length) none

/-- `pd.DataFrame(data_rows, columns=headers)` (line 135): pandas pads the
ragged rows to the longest row's length and then raises
`ValueError: N columns passed, passed data had M columns` unless that
length equals `len(headers)`; the raise is modelled as `none` (the source
catches it and continues to the next candidate). -/
def pd_DataFrame (data_rows : List (List String)) (headers : List String) :
    Option ResultTable :=
  if maxRowLen data_rows = headers.length then
    some ⟨headers, to_object_array data_rows⟩
  else
    none

/-- A row is dropped by `df.dropna(how='all')` exactly when every cell is
missing (NaN); empty strings are not missing. -/
def row_all_na (r : List (Option String)) : Bool :=
  r.all fun c => c.isNone

/-- `df.dropna(how='all')` (line 137, first call): drop the rows whose cells
are all missing. -/
def dropna_rows (t : ResultTable) : ResultTable :=
  ⟨t.header, t.rows.filter fun r => !row_all_na r⟩

/-- A column position is all-NaN when every row's cell there is missing
(out-of-range positions read as missing). -/
def col_all_na (rows : List (List (Option String))) (j : Nat) : Bool :=
  rows.all fun r => (r.getD j none).isNone

/-- The column positions `df.dropna(axis=1, how='all')` keeps: those where
some row has a present (non-NaN) cell. -/
def keptCols (t : ResultTable) : List Nat :=
  (List.range t.header.length).filter fun j => !col_all_na t.rows j

/-- `df.dropna(axis=1, how='all')` (line 137, second call): drop the columns
that are missing in every row, in both the header and each row. -/
def dropna_cols (t : ResultTable) : ResultTable :=
  let ks := keptCols t
  ⟨ks.map (fun j => t.header.getD j ""),
   t.rows.map fun r => ks.map fun j => r.getD j none⟩

/-- The full pruning of line 137: `df.dropna(how='all').dropna(axis=1, how='all')`. -/
def prune (t : ResultTable) : ResultTable :=
  dropna_cols (dropna_rows t)

/-- One iteration of the candidate loop of `parse_race_data` (lines 108-142):
`some` is the `return df` path, `none` is every `continue` path — no rows,
header with fewer than 2 cells, no surviving data row, or the DataFrame
constructor raising on a ragged width mismatch. -/
def process_table (table : RawTable) : Option ResultTable :=
  let rows := table
  if rows.isEmpty then none
  else
    let headers := (rows.headD []).map strip
    if headers.isEmpty ∨ headers.length < 2 then none
    else
      let data_rows := extract_data_rows rows.tail
      if data_rows.isEmpty then none
      else
        match pd_DataFrame data_rows headers with
        | some df => some (prune df)
        | none => none

/-- The candidate scan: first table whose `process_table` succeeds wins;
falling off the end is the `No valid race data found in any table` error. -/
def scan_tables : List RawTable → Except ExtractError ResultTable
  | [] => .error .NoValidData
  | t :: ts =>
    match process_table t with
    | some r => .ok r
    | none => scan_tables ts

/-- `parse_race_data` (lines 91-145) over the document-order list of
marker-class tables: an empty list is the `No race data tables found`
error (line 103-105), otherwise the candidate scan runs. -/
def parse_race_data (tables : List RawTable) : Except ExtractError ResultTable :=
  if tables.isEmpty then .error .NoTableFound
  else scan_tables tables

/-- The candidate scan with `st.session_state.debug_mode` threaded through:
alongside the result, the list of `st.text` trace messages the loop emits.
Line 122 emits the headers of each accepted candidate; line 141 emits the
pandas ValueError text when DataFrame construction fails. -/
def scan_tables_traced (debug : Bool) :
    List RawTable → Except ExtractError ResultTable × List String
  | [] => (.error .NoValidData, [])
  | t :: ts =>
    if t.isEmpty then scan_tables_traced debug ts
    else
      let headers := (t.headD []).map strip
      if headers.isEmpty ∨ headers.length < 2 then scan_tables_traced debug ts
      else
        let trace₁ :=
          if debug then ["Processing table with headers: " ++ toString headers]
          else []
        let data_rows := extract_data_rows t.tail
        if data_rows.isEmpty then
          let rest := scan_tables_traced debug ts
          (rest.1, trace₁ ++ rest.2)
        else
          match pd_DataFrame data_rows headers with
          | some df => (.ok (prune df), trace₁)
          | none =>
            let trace₂ :=
              if debug then
                ["Error processing table: " ++ toString headers.length ++
                  " columns passed, passed data had " ++
                  toString (maxRowLen data_rows) ++ " columns"]
              else []
            let rest := scan_tables_traced debug ts
            (rest.1, trace₁ ++ trace₂ ++ rest.2)

/-- `parse_race_data` with the debug flag threaded through: the returned
result plus the trace messages emitted at lines 95, 101, 122 and 141. -/
def parse_race_data_traced (debug : Bool) (tables : List RawTable) :
    Except ExtractError ResultTable × List String :=
  let trace₀ :=
    if debug then
      ["Parsing HTML content...",
       "Found " ++ toString tables.length ++ " race data tables"]
    else []
  if tables.isEmpty then (.error .NoTableFound, trace₀)
  else
    let rest := scan_tables_traced debug tables
    (rest.1, trace₀ ++ rest.2)

/-- The observable outcome of the browser interaction inside `fetch_data`
(lines 80-87): either the rendered document text is captured after the
marker element appeared, or the wait timed out (a TimeoutException from
`wait_for_selector`), or navigation itself raised (DNS failure, connection
refused, TLS failure); `msg` is the exception's text. -/
inductive FetchEvent where
  | content (html : String)
  | timeoutExn (msg : String)
  | navExn (msg : String)
deriving Repr, DecidableEq

/-- `fetch_data` (lines 80-87): on success the rendered HTML is returned;
every exception — timeout and navigation failure alike — is caught by the
single `except` clause and surfaced as the one message
`Error fetching data: ...` (with `None` returned to the caller). -/
def fetch_data : FetchEvent → Except String String
  | .content html => .ok html
  | .timeoutExn msg => .error ("Error fetching data: " ++ msg)
  | .navExn msg => .error ("Error fetching data: " ++ msg)

/-- The observable outcome of driver construction inside `setup_selenium`
(lines 55-68): the driver came up, or some exception with text `msg` was
raised while installing or starting it. -/
inductive SetupEvent where
  | ready
  | initExn (msg : String)
deriving Repr, DecidableEq

/-- `setup_selenium` (lines 55-68): a working driver, or — for any
exception — the surfaced message `Error setting up Chrome driver: ...`
(with `None` returned to the caller). -/
def setup_selenium : SetupEvent → Except String Unit
  | .ready => .ok ()
  | .initExn msg => .error ("Error setting up Chrome driver: " ++ msg)

/-- One fetch cycle of `main` (lines 171-238) after the Start button:
set up the driver (returning early with no session when that fails), then
inside `try` fetch the page and, when HTML came back, parse it
(`tables` stands for the marker-class tables of that HTML); the `finally`
on line 236-238 calls `driver.quit()` on every path out of the `try`.
Returns the parse outcome (`none` when fetching failed or no driver) and
whether `driver.quit()` ran. -/
def run_cycle (su : SetupEvent) (fe : FetchEvent) (tables : List RawTable) :
    Option (Except ExtractError ResultTable) × Bool :=
  match setup_selenium su with
  | .error _ => (none, false)
  | .ok _ =>
    let body :=
      match fetch_data fe with
      | .error _ => none
      | .ok _ => some (parse_race_data tables)
    (body, true)

end Scraper

namespace Scraper

/-! Helper lemmas about the extraction pipeline. -/

theorem keep_row_eq (row : List String) :
    keep_row row =
      if ((row.map strip).any fun s => !s.isEmpty) = true
      then some (row.map strip) else none := by
  unfold keep_row
  by_cases h1 : row.isEmpty
  · have hrow : row = [] := List.isEmpty_iff.mp h1
    subst hrow
    simp
  · simp [h1]

theorem extract_data_rows_cons (row : List String) (rest : List (List String)) :
    extract_data_rows (row :: rest) =
      if ((row.map strip).any fun s => !s.isEmpty) = true
      then row.map strip :: extract_data_rows rest
      else extract_data_rows rest := by
  by_cases h2 : ((row.map strip).any fun s => !s.isEmpty) = true
  · rw [if_pos h2]
    show List.filterMap keep_row (row :: rest) = _
    rw [List.filterMap_cons, keep_row_eq, if_pos h2]
    rfl
  · rw [if_neg h2]
    show List.filterMap keep_row (row :: rest) = _
    rw [List.filterMap_cons, keep_row_eq, if_neg h2]
    rfl

theorem mem_extract_data_rows {rows : List (List String)} {rd : List String}
    (h : rd ∈ extract_data_rows rows) :
    rd ≠ [] ∧ rd.any (fun s => !s.isEmpty) = true := by
  rw [extract_data_rows, List.mem_filterMap] at h
  obtain ⟨row, _, hf⟩ := h
  rw [keep_row_eq] at hf
  by_cases h2 : ((row.map strip).any fun s => !s.isEmpty) = true
  · rw [if_pos h2] at hf
    obtain rfl := Option.some.inj hf
    refine ⟨?_, h2⟩
    intro hnil
    rw [hnil] at h2
    exact Bool.noConfusion h2
  · rw [if_neg h2] at hf
    exact Option.noConfusion hf

theorem extract_data_rows_length (rows : List (List String)) :
    (extract_data_rows rows).length =
      rows.countP fun row => (row.map strip).any fun s => !s.isEmpty := by
  induction rows with
  | nil => rfl
  | cons row rest ih =>
    rw [extract_data_rows_cons, List.countP_cons]
    by_cases h2 : ((row.map strip).any fun s => !s.isEmpty) = true
    · rw [if_pos h2, if_pos h2, List.length_cons, ih]
    · rw [if_neg h2, if_neg h2, ih, Nat.add_zero]

theorem process_table_eq_some {t : RawTable} {r : ResultTable}
    (h : process_table t = some r) :
    extract_data_rows t.tail ≠ [] ∧
    maxRowLen (extract_data_rows t.tail) = ((t.headD []).map strip).length ∧
    r = prune ⟨(t.headD []).map strip, to_object_array (extract_data_rows t.tail)⟩ := by
  simp only [process_table] at h
  by_cases h1 : t.isEmpty
  · rw [if_pos h1] at h
    exact Option.noConfusion h
  rw [if_neg h1] at h
  by_cases h2 : ((t.headD []).map strip).isEmpty ∨ ((t.headD []).map strip).length < 2
  · rw [if_pos h2] at h
    exact Option.noConfusion h
  rw [if_neg h2] at h
  by_cases h3 : (extract_data_rows t.tail).isEmpty
  · rw [if_pos h3] at h
    exact Option.noConfusion h
  rw [if_neg h3] at h
  rcases hdf : pd_DataFrame (extract_data_rows t.tail) ((t.headD []).map strip)
    with _ | df
  · rw [hdf] at h
    exact Option.noConfusion h
  · rw [hdf] at h
    obtain rfl := Option.some.inj h
    unfold pd_DataFrame at hdf
    by_cases h4 : maxRowLen (extract_data_rows t.tail) = ((t.headD []).map strip).length
    · refine ⟨fun hnil => h3 (by simp [hnil]), h4, ?_⟩
      rw [if_pos h4] at hdf
      obtain rfl := Option.some.inj hdf
      rfl
    · rw [if_neg h4] at hdf
      exact Option.noConfusion hdf

theorem scan_tables_ok {tables : List RawTable} {r : ResultTable}
    (h : scan_tables tables = .ok r) : ∃ t ∈ tables, process_table t = some r := by
  induction tables with
  | nil => simp [scan_tables] at h
  | cons t ts ih =>
    rw [scan_tables] at h
    rcases hpt : process_table t with _ | r'
    · rw [hpt] at h
      obtain ⟨u, hu, hpu⟩ := ih h
      exact ⟨u, by simp [hu], hpu⟩
    · rw [hpt] at h
      obtain rfl := Except.ok.inj h
      exact ⟨t, by simp, hpt⟩

theorem parse_race_data_ok {tables : List RawTable} {r : ResultTable}
    (h : parse_race_data tables = .ok r) :
    ∃ t ∈ tables, process_table t = some r := by
  unfold parse_race_data at h
  by_cases h1 : tables.isEmpty
  · simp [h1] at h
  · rw [if_neg h1] at h
    exact scan_tables_ok h

theorem parse_singleton_ok {t : RawTable} {r : ResultTable}
    (h : parse_race_data [t] = .ok r) : process_table t = some r := by
  obtain ⟨u, hu, hpu⟩ := parse_race_data_ok h
  obtain rfl : u = t := by simpa using hu
  exact hpu

theorem dropna_rows_rows_eq {t : ResultTable}
    (h : ∀ p ∈ t.rows, row_all_na p = false) : dropna_rows t = t := by
  have : (t.rows.filter fun r => !row_all_na r) = t.rows :=
    List.filter_eq_self.mpr fun p hp => by simp [h p hp]
  simp [dropna_rows, this]

theorem to_object_array_not_na {data_rows : List (List String)}
    (hne : ∀ rd ∈ data_rows, rd ≠ []) :
    ∀ p ∈ to_object_array data_rows, row_all_na p = false := by
  intro p hp
  simp only [to_object_array, List.mem_map] at hp
  obtain ⟨rd, hrd, rfl⟩ := hp
  rcases hc : rd with _ | ⟨c, cs⟩
  · exact absurd hc (hne rd hrd)
  · simp [row_all_na]

theorem dropna_cols_wf (t : ResultTable) :
    ∀ row ∈ (dropna_cols t).rows, row.length = (dropna_cols t).header.length := by
  intro row hrow
  simp only [dropna_cols, List.mem_map] at hrow
  obtain ⟨p, _, rfl⟩ := hrow
  simp [dropna_cols]

/-! The claims. -/

/-- Claim C5 (confirmed): an HTML input with no marker-class table — an
empty candidate list, exactly what `soup.find_all` returns then — makes
`parse_race_data` fail with `NoTableFound` and return no ResultTable. -/
theorem C5_extract_no_tables :
    parse_race_data [] = .error ExtractError.NoTableFound := rfl

/-- Claim C1, counterexample: a single table whose header is
`["", "Time"]` (one non-empty cell) with one real data row is NOT rejected:
the code counts header cells before emptiness (`len(headers) < 2`), finds 2,
accepts the candidate and returns a ResultTable instead of `NoValidData`. -/
theorem C1_counterexample :
    parse_race_data [[["", "Time"], ["1", "2:00"]]] =
      .ok ⟨["", "Time"], [[some "1", some "2:00"]]⟩ := rfl

/-- Claim C1, amended: the extractor rejects a candidate whose header row
has fewer than 2 cells in total (trimmed or not — emptiness of the cells is
never consulted); a header with 2 cells of which one is empty is accepted. -/
theorem C1_header_cell_count (t : RawTable) (h : (t.headD []).length < 2) :
    process_table t = none := by
  simp only [process_table]
  by_cases h1 : t.isEmpty
  · rw [if_pos h1]
  · rw [if_neg h1]
    have h2 : ((t.headD []).map strip).isEmpty ∨ ((t.headD []).map strip).length < 2 :=
      Or.inr (by simpa [List.length_map] using h)
    rw [if_pos h2]

/-- Claim C1, witness for the amended theorem: a one-cell header is rejected. -/
theorem C1_header_cell_count_witness : process_table [["Solo"]] = none :=
  C1_header_cell_count [["Solo"]] (by decide)

/-- Claim C2, counterexample: the `Time` column is empty (after trimming) in
every surviving data row, yet the returned ResultTable keeps it — `dropna`
removes only missing (NaN) cells, and an empty string is not NaN. -/
theorem C2_counterexample :
    parse_race_data [[["Rank", "Time"], ["1", ""]]] =
      .ok ⟨["Rank", "Time"], [[some "1", some ""]]⟩ := rfl

/-- Claim C2, amended: pruning keeps exactly the column positions at which
some row has a present (non-missing) cell; a cell holding the empty string is
present, so columns that are empty-but-present in every row are retained, and
only columns every row leaves missing (short-row padding) are removed. -/
theorem C2_column_pruning (t : ResultTable) (j : Nat) :
    (j ∈ keptCols t ↔ j < t.header.length ∧ ∃ r ∈ t.rows, r.getD j none ≠ none) ∧
    (dropna_cols t).header = (keptCols t).map fun k => t.header.getD k "" := by
  refine ⟨?_, rfl⟩
  simp only [keptCols, List.mem_filter, List.mem_range, Bool.not_eq_true']
  constructor
  · rintro ⟨hj, hall⟩
    refine ⟨hj, ?_⟩
    by_contra hnone
    push_neg at hnone
    have hna : col_all_na t.rows j = true :=
      List.all_eq_true.mpr fun r hr => Option.isNone_iff_eq_none.mpr (hnone r hr)
    rw [hna] at hall
    exact Bool.noConfusion hall
  · rintro ⟨hj, r, hr, hne⟩
    refine ⟨hj, ?_⟩
    cases hb : col_all_na t.rows j with
    | false => rfl
    | true =>
      have hmem := List.all_eq_true.mp hb r hr
      exact absurd (Option.isNone_iff_eq_none.mp hmem) hne

/-- Claim C3, counterexample: a surviving data row longer than the header is
not truncated — `pd.DataFrame` raises, the candidate is skipped, and with no
other candidate the whole extraction fails with `NoValidData`. -/
theorem C3_counterexample :
    parse_race_data [[["A", "B"], ["1", "2", "3"]]] =
      .error ExtractError.NoValidData := rfl

/-- Claim C3, amended: materialization succeeds exactly when the longest
surviving row has the header's length — then shorter rows get missing
trailing cells; when any row is longer than the header (or every row is
shorter), the DataFrame constructor raises and the candidate is skipped. -/
theorem C3_materialization (data_rows : List (List String)) (headers : List String) :
    (maxRowLen data_rows ≠ headers.length → pd_DataFrame data_rows headers = none) ∧
    (maxRowLen data_rows = headers.length →
      pd_DataFrame data_rows headers =
        some ⟨headers, data_rows.map fun r =>
          r.map some ++ List.replicate (headers.length - r.length) none⟩) := by
  constructor
  · intro h
    simp [pd_DataFrame, h]
  · intro h
    simp [pd_DataFrame, h, to_object_array]

/-- Claim C3, witness for the amended theorem: a 3-cell row under a 2-cell
header makes materialization fail; a 1-cell row next to a 2-cell row under a
2-cell header is padded with a missing trailing cell. -/
theorem C3_materialization_witness :
    pd_DataFrame [["1", "2", "3"]] ["A", "B"] = none ∧
    pd_DataFrame [["1"], ["2", "3"]] ["A", "B"] =
      some ⟨["A", "B"], [[some "1", none], [some "2", some "3"]]⟩ := by
  refine ⟨(C3_materialization [["1", "2", "3"]] ["A", "B"]).1 (by decide), ?_⟩
  have h := (C3_materialization [["1"], ["2", "3"]] ["A", "B"]).2 (by decide)
  simpa using h

theorem scan_tables_append {pre post : List RawTable} {t : RawTable}
    {r : ResultTable} (hpre : ∀ u ∈ pre, process_table u = none)
    (ht : process_table t = some r) :
    scan_tables (pre ++ t :: post) = .ok r := by
  induction pre with
  | nil =>
    rw [List.nil_append]
    simp only [scan_tables, ht]
  | cons p ps ih =>
    have hp := hpre p (by simp)
    rw [List.cons_append]
    simp only [scan_tables, hp]
    exact ih fun u hu => hpre u (by simp [hu])

/-- Claim C4, counterexample: the first candidate produces a surviving data
row (`["1","2","3"]`), yet the returned ResultTable is built from the second
candidate — the first one's DataFrame construction raised (3 cells under a
2-cell header) and the loop continued past it. -/
theorem C4_counterexample :
    extract_data_rows [["1", "2", "3"]] = [["1", "2", "3"]] ∧
    parse_race_data [[["A", "B"], ["1", "2", "3"]], [["C", "D"], ["4", "5"]]] =
      .ok ⟨["C", "D"], [[some "4", some "5"]]⟩ := ⟨rfl, rfl⟩

/-- Claim C4, amended: the result comes from the first candidate, in
document order, that is accepted, produces a surviving data row AND
materializes successfully; every earlier candidate failing any of these
continues the scan, and later candidates are never consulted (the result
does not depend on what follows the winning candidate). -/
theorem C4_first_valid (pre post : List RawTable) (t : RawTable)
    (r : ResultTable) (hpre : ∀ u ∈ pre, process_table u = none)
    (ht : process_table t = some r) :
    parse_race_data (pre ++ t :: post) = .ok r := by
  unfold parse_race_data
  rw [if_neg (show ¬((pre ++ t :: post).isEmpty = true) by cases pre <;> simp)]
  exact scan_tables_append hpre ht

/-- Claim C4, witness for the amended theorem: an invalid first table, a
valid second, an arbitrary third — the result is the second's and the third
is never consulted. -/
theorem C4_first_valid_witness :
    parse_race_data [[["Only"]], [["C", "D"], ["4", "5"]], [["X", "Y"], ["9", "8"]]] =
      .ok ⟨["C", "D"], [[some "4", some "5"]]⟩ :=
  C4_first_valid [[["Only"]]] [[["X", "Y"], ["9", "8"]]] [["C", "D"], ["4", "5"]]
    ⟨["C", "D"], [[some "4", some "5"]]⟩ (by decide) rfl

/-- Claim C6 (confirmed): for a single valid candidate table, the returned
ResultTable has exactly one row per data row of the candidate that is not
entirely empty after trimming. -/
theorem C6_row_count (t : RawTable) (r : ResultTable)
    (h : parse_race_data [t] = .ok r) :
    r.rows.length =
      t.tail.countP fun row => (row.map strip).any fun s => !s.isEmpty := by
  have hp := parse_singleton_ok h
  obtain ⟨hne, hlen, hr⟩ := process_table_eq_some hp
  subst hr
  have hnn : ∀ rd ∈ extract_data_rows t.tail, rd ≠ [] :=
    fun rd hrd => (mem_extract_data_rows hrd).1
  have hna := to_object_array_not_na hnn
  unfold prune
  rw [dropna_rows_rows_eq
    (t := ⟨(t.headD []).map strip, to_object_array (extract_data_rows t.tail)⟩) hna]
  simp only [dropna_cols, List.length_map, to_object_array]
  exact extract_data_rows_length t.tail

/-- Claim C6, witness: Scenario A — header `["Rank","Name","Time"]`, three
data rows of which one is fully empty, yields 2 rows and 3 columns. -/
theorem C6_row_count_witness :
    (ResultTable.mk ["Rank", "Name", "Time"]
        [[some "1", some "A", some "5:00"],
         [some "2", some "B", some "6:00"]]).rows.length =
      ([["Rank", "Name", "Time"], ["1", "A", "5:00"], ["", "", ""],
        ["2", "B", "6:00"]] : RawTable).tail.countP
        (fun row => (row.map strip).any fun s => !s.isEmpty) ∧
    (ResultTable.mk ["Rank", "Name", "Time"]
        [[some "1", some "A", some "5:00"],
         [some "2", some "B", some "6:00"]]).header.length = 3 :=
  ⟨C6_row_count
      [["Rank", "Name", "Time"], ["1", "A", "5:00"], ["", "", ""], ["2", "B", "6:00"]]
      (ResultTable.mk ["Rank", "Name", "Time"]
        [[some "1", some "A", some "5:00"], [some "2", some "B", some "6:00"]])
      rfl,
   rfl⟩

/-- Claim C7 (confirmed): extraction is all-or-nothing — it returns either a
tagged failure and no table, or a complete ResultTable in which, after the
empty-column pruning, every row has exactly the header's arity. -/
theorem C7_all_or_nothing (tables : List RawTable) (r : ResultTable)
    (h : parse_race_data tables = .ok r) :
    ∀ row ∈ r.rows, row.length = r.header.length := by
  obtain ⟨t, _, hpt⟩ := parse_race_data_ok h
  obtain ⟨_, _, hr⟩ := process_table_eq_some hpt
  subst hr
  simpa only [prune] using
    dropna_cols_wf
      (dropna_rows ⟨(t.headD []).map strip, to_object_array (extract_data_rows t.tail)⟩)

/-- Claim C7, witness: a concrete returned row has the header's arity. -/
theorem C7_all_or_nothing_witness :
    ([some "a", some "b"] : List (Option String)).length =
      (ResultTable.mk ["H1", "H2"] [[some "a", some "b"]]).header.length :=
  C7_all_or_nothing [[["H1", "H2"], ["a", "b"]]]
    (ResultTable.mk ["H1", "H2"] [[some "a", some "b"]]) rfl
    [some "a", some "b"] (by decide)

/-- Claim C8, counterexample: the failure surfaced when the wait for the
marker element times out is literally the same value as the one surfaced
when navigation fails — the single `except` clause of `fetch_data` tags both
with the one message `Error fetching data: ...`, so there are no distinct
`RenderTimeout` and `NavigationError` failure values. -/
theorem C8_counterexample :
    fetch_data (FetchEvent.timeoutExn "could not reach host") =
      fetch_data (FetchEvent.navExn "could not reach host") := rfl

/-- Claim C8, amended: render failures are surfaced as tagged message values
and never as raw exceptions, but through two channels only:
`Error setting up Chrome driver: ...` for browser-init failures and
`Error fetching data: ...` for both navigation failures and timeouts,
which are distinguished only by the embedded exception text. -/
theorem C8_two_failure_channels :
    (∀ e : FetchEvent, (∃ html, fetch_data e = .ok html) ∨
      ∃ msg, fetch_data e = .error ("Error fetching data: " ++ msg)) ∧
    (∀ s : SetupEvent, setup_selenium s = .ok () ∨
      ∃ msg, setup_selenium s = .error ("Error setting up Chrome driver: " ++ msg)) := by
  constructor
  · intro e
    cases e with
    | content html => exact Or.inl ⟨html, rfl⟩
    | timeoutExn msg => exact Or.inr ⟨msg, rfl⟩
    | navExn msg => exact Or.inr ⟨msg, rfl⟩
  · intro s
    cases s with
    | ready => exact Or.inl rfl
    | initExn msg => exact Or.inr ⟨msg, rfl⟩

theorem scan_tables_traced_fst (debug : Bool) (tables : List RawTable) :
    (scan_tables_traced debug tables).1 = scan_tables tables := by
  induction tables with
  | nil => rfl
  | cons t ts ih =>
    by_cases h1 : t.isEmpty
    · have hpt : process_table t = none := by
        simp only [process_table]
        rw [if_pos h1]
      simp only [scan_tables_traced, scan_tables]
      rw [if_pos h1, hpt]
      exact ih
    · by_cases h2 : ((t.headD []).map strip).isEmpty ∨ ((t.headD []).map strip).length < 2
      · have hpt : process_table t = none := by
          simp only [process_table]
          rw [if_neg h1, if_pos h2]
        simp only [scan_tables_traced, scan_tables]
        rw [if_neg h1, if_pos h2, hpt]
        exact ih
      · by_cases h3 : (extract_data_rows t.tail).isEmpty
        · have hpt : process_table t = none := by
            simp only [process_table]
            rw [if_neg h1, if_neg h2, if_pos h3]
          simp only [scan_tables_traced, scan_tables]
          rw [if_neg h1, if_neg h2, if_pos h3, hpt]
          simpa using ih
        · rcases hdf : pd_DataFrame (extract_data_rows t.tail) ((t.headD []).map strip)
            with _ | df
          · have hpt : process_table t = none := by
              simp only [process_table]
              rw [if_neg h1, if_neg h2, if_neg h3, hdf]
            simp only [scan_tables_traced, scan_tables]
            rw [if_neg h1, if_neg h2, if_neg h3, hdf, hpt]
            simpa using ih
          · have hpt : process_table t = some (prune df) := by
              simp only [process_table]
              rw [if_neg h1, if_neg h2, if_neg h3, hdf]
            simp only [scan_tables_traced, scan_tables]
            rw [if_neg h1, if_neg h2, if_neg h3, hdf, hpt]

/-- Claim C9 (confirmed): running extraction with the debug/trace flag
enabled returns exactly the same result — ResultTable or failure — as with
it disabled; the flag only changes the emitted trace messages. -/
theorem C9_debug_no_effect (tables : List RawTable) :
    (parse_race_data_traced true tables).1 =
      (parse_race_data_traced false tables).1 := by
  by_cases h : tables.isEmpty
  · simp [parse_race_data_traced, h]
  · simp [parse_race_data_traced, h, scan_tables_traced_fst]

/-- Claim C10 (confirmed): whenever the browser session was successfully
acquired, `driver.quit()` runs at the end of the cycle on every exit path —
fetch failure (navigation error or timeout), parse failure, and success
alike — because the whole body sits in a `try` whose `finally` quits. -/
theorem C10_driver_released (su : SetupEvent) (fe : FetchEvent)
    (tables : List RawTable) (h : setup_selenium su = .ok ()) :
    (run_cycle su fe tables).2 = true := by
  cases su with
  | ready => rfl
  | initExn msg => exact absurd h (by simp [setup_selenium])

/-- Claim C10, witness: a cycle whose wait times out still quits the driver. -/
theorem C10_driver_released_witness :
    (run_cycle SetupEvent.ready (FetchEvent.timeoutExn "wait timed out") []).2 = true :=
  C10_driver_released SetupEvent.ready (FetchEvent.timeoutExn "wait timed out") [] rfl

end Scraper
